/-
Formal model of the Ali Inventory Management System core
(product variants, stock arithmetic, search, expiry sweep, JSON persistence),
translated from `src/models/product.py`, `src/models/electronics.py`,
`src/models/grocery.py`, `src/models/clothing.py`, `src/models/inventory.py`
and `src/exceptions/custom_exceptions.py`.

Python floats are modelled as rationals (ℚ), Python ints as ℤ (arbitrary
precision, as in Python).  Exceptions are modelled with `Except`; since every
raise in the source happens before any state mutation, a raised exception
leaves the modelled state untouched, matching the Python code.
-/
import Mathlib

namespace IMS

/-! ## Calendar dates

Models `datetime.date` values.  `Grocery.__init__` parses its `expiry_date`
string with `dateutil.parser.parse(...).date()` and `to_dict` writes it back
with `date.isoformat()`.  Neither library is part of this repository, so the
string conversions are modelled from the spec (§3: "`expiry_date` (calendar
date, parsed from an ISO `YYYY-MM-DD` string at construction)").
-/

/-- Calendar date, as `datetime.date`: a year/month/day triple. -/
structure Date where
  year : Nat
  month : Nat
  day : Nat
deriving DecidableEq, Repr

/-- Gregorian leap-year rule, as used by `datetime.date` validity. -/
def isLeapYear (y : Nat) : Bool :=
  y % 4 == 0 && (y % 100 != 0 || y % 400 == 0)

/-- Number of days of a month in a given year. -/
def daysInMonth (y m : Nat) : Nat :=
  if m == 2 then (if isLeapYear y then 29 else 28)
  else if m == 4 || m == 6 || m == 9 || m == 11 then 30
  else 31

/-- Validity of a date, following `datetime.date`: year 1..9999, real
calendar month/day. -/
def Date.Valid (d : Date) : Prop :=
  1 ≤ d.year ∧ d.year ≤ 9999 ∧ 1 ≤ d.month ∧ d.month ≤ 12 ∧
    1 ≤ d.day ∧ d.day ≤ daysInMonth d.year d.month

instance (d : Date) : Decidable d.Valid := by
  unfold Date.Valid; infer_instance

/-- Strict ordering of dates (lexicographic on year, month, day), as the
`>` comparison of `datetime.date` used by `Grocery.is_expired`. -/
def Date.ltb (a b : Date) : Bool :=
  decide (a.year < b.year) ||
    (a.year == b.year &&
      (decide (a.month < b.month) ||
        (a.month == b.month && decide (a.day < b.day))))

/-- Character for the decimal digit `n % 10`. -/
def digitChar (n : Nat) : Char := Char.ofNat (48 + n % 10)

/-- Two-digit zero-padded decimal rendering (for months and days). -/
def pad2 (n : Nat) : List Char := [digitChar (n / 10), digitChar n]

/-- Four-digit zero-padded decimal rendering (for years). -/
def pad4 (n : Nat) : List Char :=
  [digitChar (n / 1000), digitChar (n / 100), digitChar (n / 10), digitChar n]

/-- Modelled from the spec: `date.isoformat()` (Python standard library, not
part of this repository), producing `YYYY-MM-DD`. -/
def Date.isoformat (d : Date) : String :=
  ⟨pad4 d.year ++ '-' :: (pad2 d.month ++ '-' :: pad2 d.day)⟩

/-- Value of a decimal digit character, `none` on a non-digit. -/
def digit? (c : Char) : Option Nat :=
  if 48 ≤ c.toNat ∧ c.toNat ≤ 57 then some (c.toNat - 48) else none

/-- Modelled from the spec: `dateutil.parser.parse(s).date()` (third-party
library, not part of this repository), restricted to the ISO `YYYY-MM-DD`
format that §3 of the spec names as the construction format; returns `none`
(a `ValueError`-kind failure) on anything else. -/
def Date.fromIso (s : String) : Option Date :=
  match s.data with
  | [y3, y2, y1, y0, h1, m1, m0, h2, d1, d0] =>
    if h1 = '-' ∧ h2 = '-' then
      match digit? y3, digit? y2, digit? y1, digit? y0,
            digit? m1, digit? m0, digit? d1, digit? d0 with
      | some a, some b, some c, some e, some f, some g, some h, some i =>
        let d : Date := ⟨1000 * a + 100 * b + 10 * c + e, 10 * f + g, 10 * h + i⟩
        if d.Valid then some d else none
      | _, _, _, _, _, _, _, _ => none
    else none
  | _ => none

/-! ## JSON values and objects

Parsed JSON scalars, as produced by `json.load`: strings, ints and floats
(floats modelled as rationals).  JSON objects are association lists in key
insertion order; `json.load` yields dictionaries, whose keys are unique.
-/

/-- Parsed JSON scalar value. -/
inductive JVal where
  | jstr (s : String)
  | jint (n : Int)
  | jfloat (q : Rat)
deriving DecidableEq, Repr

/-- Parsed JSON object: keys with values, in insertion order. -/
abbrev JObj := List (String × JVal)

/-- Dictionary lookup (`obj[key]` / `obj.get(key)`). -/
def dictGet (key : String) (obj : JObj) : Option JVal :=
  match obj.find? (fun kv => kv.1 == key) with
  | some kv => some kv.2
  | none => none

/-- Dictionary `obj.pop(key, None)`: the looked-up value together with the
object with that key removed. -/
def dictPop (key : String) (obj : JObj) : Option JVal × JObj :=
  (dictGet key obj, obj.filter (fun kv => kv.1 != key))

/-! ## Error kinds

Models the exception classes of `src/exceptions/custom_exceptions.py`
together with the Python builtins (`ValueError`, `TypeError`,
`AttributeError`) that the core can raise.  `PyErr.message` is Python's
`str(e)` for each class, from the `super().__init__(...)` calls.
-/

/-- Exceptions the core can raise. -/
inductive PyErr where
  | valueError (msg : String)
  | typeError (msg : String)
  | attributeError (msg : String)
  | insufficientStock (product_id : String) (requested : Int) (available : Int)
  | duplicateProduct (product_id : String)
  | productNotFound (product_id : String)
  | invalidProductData (msg : String)
  | invalidProductType (product_type : String)
deriving DecidableEq, Repr

/-- Python `str(e)`, from each exception class's `__init__`. -/
def PyErr.message : PyErr → String
  | .valueError m => m
  | .typeError m => m
  | .attributeError m => m
  | .insufficientStock id r a =>
      "Insufficient stock for product " ++ id ++ ". Requested: " ++
        toString r ++ ", Available: " ++ toString a
  | .duplicateProduct id => "Product with ID " ++ id ++ " already exists in inventory"
  | .productNotFound id => "Product with ID " ++ id ++ " not found in inventory"
  | .invalidProductData m => "Invalid product data: " ++ m
  | .invalidProductType t => "Invalid product type: " ++ t

/-- True for the `InvalidProductData` kind only. -/
def PyErr.isInvalidProductData : PyErr → Bool
  | .invalidProductData _ => true
  | _ => false

/-! ## Product variants

The abstract base class `Product` with its three leaf subclasses is a closed
sum: the common fields live in `Product`, the subclass fields in `Variant`.
-/

/-- Subclass-specific fields of the three product variants. -/
inductive Variant where
  | electronics (warranty_years : Int) (brand : String)
  | grocery (expiry_date : Date)
  | clothing (size : String) (material : String)
deriving DecidableEq, Repr

/-- Discriminator tag, `self.__class__.__name__` as written by `to_dict`. -/
def Variant.tag : Variant → String
  | .electronics _ _ => "Electronics"
  | .grocery _ => "Grocery"
  | .clothing _ _ => "Clothing"

/-- A product: the common fields of `Product.__init__` plus the variant. -/
structure Product where
  product_id : String
  name : String
  price : Rat
  quantity_in_stock : Int
  variant : Variant
deriving DecidableEq, Repr

/-- Constructor `Electronics(...)`: stores the fields, with no validation
(`Product.__init__` performs none). -/
def mkElectronics (product_id name : String) (price : Rat)
    (quantity_in_stock : Int) (warranty_years : Int) (brand : String) : Product :=
  ⟨product_id, name, price, quantity_in_stock, .electronics warranty_years brand⟩

/-- Constructor `Grocery(...)`: stores the fields after parsing the expiry
string; a string `dateutil` cannot parse raises a `ValueError` kind.  No
other validation is performed. -/
def mkGrocery (product_id name : String) (price : Rat)
    (quantity_in_stock : Int) (expiry_date : String) : Except PyErr Product :=
  match Date.fromIso expiry_date with
  | some d => .ok ⟨product_id, name, price, quantity_in_stock, .grocery d⟩
  | none => .error (.valueError ("Unknown string format: " ++ expiry_date))

/-- Constructor `Clothing(...)`: stores the fields, with no validation. -/
def mkClothing (product_id name : String) (price : Rat)
    (quantity_in_stock : Int) (size material : String) : Product :=
  ⟨product_id, name, price, quantity_in_stock, .clothing size material⟩

/-- Method `Product.sell`: checks the quantity, then decrements stock and
returns `price * quantity`.  Both raises happen before the mutation. -/
def Product.sell (p : Product) (quantity : Int) : Except PyErr (Rat × Product) :=
  if quantity < 0 then .error (.valueError "Sale quantity cannot be negative")
  else if quantity > p.quantity_in_stock then
    .error (.insufficientStock p.product_id quantity p.quantity_in_stock)
  else
    .ok (p.price * (quantity : Rat),
      { p with quantity_in_stock := p.quantity_in_stock - quantity })

/-- Method `Product.restock`: rejects a negative amount, else increments. -/
def Product.restock (p : Product) (amount : Int) : Except PyErr Product :=
  if amount < 0 then .error (.valueError "Restock amount cannot be negative")
  else .ok { p with quantity_in_stock := p.quantity_in_stock + amount }

/-- Property setter `Product.price`: rejects a negative price, else
overwrites it. -/
def Product.set_price (p : Product) (new_price : Rat) : Except PyErr Product :=
  if new_price < 0 then .error (.valueError "Price cannot be negative")
  else .ok { p with price := new_price }

/-- Method `Product.get_total_value`: `price * quantity`. -/
def Product.get_total_value (p : Product) : Rat :=
  p.price * (p.quantity_in_stock : Rat)

/-- Test `isinstance(product, Grocery) and product.is_expired()` used by the
expiry sweep; `is_expired` compares `datetime.now().date()` (passed here as
`today`) strictly against the expiry date. -/
def Product.isExpiredGrocery (today : Date) (p : Product) : Bool :=
  match p.variant with
  | .grocery e => Date.ltb e today
  | _ => false

/-- Method `to_dict`: the common fields and the discriminator, then the
variant fields, in the source's key order. -/
def Product.to_dict (p : Product) : JObj :=
  [("product_id", .jstr p.product_id),
   ("name", .jstr p.name),
   ("price", .jfloat p.price),
   ("quantity_in_stock", .jint p.quantity_in_stock),
   ("type", .jstr p.variant.tag)] ++
  (match p.variant with
   | .electronics w b => [("warranty_years", .jint w), ("brand", .jstr b)]
   | .grocery e => [("expiry_date", .jstr e.isoformat)]
   | .clothing s m => [("size", .jstr s), ("material", .jstr m)])

/-! ## Inventory store

`Inventory._products` is a Python dict keyed by `product_id` in insertion
order; since every insertion uses `product.product_id` as the key, the store
is modelled as the list of products in insertion order, the key of each
entry being its `product_id` field.  In-place mutation of a product held by
the store (Python's shared references) is modelled by writing the updated
product back at its id.
-/

/-- ASCII lowering of one character, `str.lower` restricted to ASCII (every
name this system manipulates). -/
def lowerChar (c : Char) : Char :=
  if 65 ≤ c.toNat ∧ c.toNat ≤ 90 then Char.ofNat (c.toNat + 32) else c

/-- Python `s.lower()`. -/
def pyLower (s : String) : String := ⟨s.data.map lowerChar⟩

/-- Python substring test `needle in hay`. -/
def strIn (needle hay : String) : Bool := decide (needle.data <:+: hay.data)

/-- The inventory: products in insertion order, keyed by `product_id`. -/
structure Inventory where
  products : List Product
deriving DecidableEq, Repr

/-- Keys of the store, in insertion order. -/
def Inventory.ids (inv : Inventory) : List String :=
  inv.products.map Product.product_id

/-- Method `add_product`: rejects a present id, else inserts at the end. -/
def Inventory.add_product (inv : Inventory) (p : Product) : Except PyErr Inventory :=
  if p.product_id ∈ inv.ids then .error (.duplicateProduct p.product_id)
  else .ok ⟨inv.products ++ [p]⟩

/-- Method `remove_product`: rejects an absent id, else deletes the entry. -/
def Inventory.remove_product (inv : Inventory) (product_id : String) :
    Except PyErr Inventory :=
  if product_id ∈ inv.ids then
    .ok ⟨inv.products.filter (fun p => p.product_id != product_id)⟩
  else .error (.productNotFound product_id)

/-- Method `get_product`: rejects an absent id, else returns the entry. -/
def Inventory.get_product (inv : Inventory) (product_id : String) :
    Except PyErr Product :=
  match inv.products.find? (fun p => p.product_id == product_id) with
  | some p => .ok p
  | none => .error (.productNotFound product_id)

/-- Method `search_by_name`: lowers the query once, then filters on
case-insensitive substring containment in `name`, in store order. -/
def Inventory.search_by_name (inv : Inventory) (name : String) : List Product :=
  let lowered := pyLower name
  inv.products.filter (fun p => strIn lowered (pyLower p.name))

/-- Known discriminator tags, the keys of `Inventory.PRODUCT_TYPES`. -/
def knownTypes : List String := ["Electronics", "Grocery", "Clothing"]

/-- Method `search_by_type`: rejects an unknown tag, else filters on the
runtime variant (`isinstance` against a leaf class is a tag match). -/
def Inventory.search_by_type (inv : Inventory) (product_type : String) :
    Except PyErr (List Product) :=
  if product_type ∈ knownTypes then
    .ok (inv.products.filter (fun p => p.variant.tag == product_type))
  else .error (.invalidProductType product_type)

/-- Method `list_all_products`: every product, in insertion order. -/
def Inventory.list_all_products (inv : Inventory) : List Product :=
  inv.products

/-- Write an updated product back at its id (models Python's in-place
mutation of the shared product object held by the dict). -/
def Inventory.setProduct (inv : Inventory) (product_id : String) (p : Product) :
    Inventory :=
  ⟨inv.products.map (fun q => if q.product_id == product_id then p else q)⟩

/-- Method `sell_product`: looks up via `get_product`, delegates to
`Product.sell`; on success the store sees the decremented product. -/
def Inventory.sell_product (inv : Inventory) (product_id : String)
    (quantity : Int) : Except PyErr (Rat × Inventory) :=
  match inv.get_product product_id with
  | .error e => .error e
  | .ok p =>
    match p.sell quantity with
    | .error e => .error e
    | .ok (total, p2) => .ok (total, inv.setProduct product_id p2)

/-- Method `restock_product`: looks up via `get_product`, delegates to
`Product.restock`. -/
def Inventory.restock_product (inv : Inventory) (product_id : String)
    (quantity : Int) : Except PyErr Inventory :=
  match inv.get_product product_id with
  | .error e => .error e
  | .ok p =>
    match p.restock quantity with
    | .error e => .error e
    | .ok p2 => .ok (inv.setProduct product_id p2)

/-- Method `total_inventory_value`: Python `sum(...)` over the store. -/
def Inventory.total_inventory_value (inv : Inventory) : Rat :=
  inv.products.foldl (fun acc p => acc + p.get_total_value) 0

/-- Loop body of `remove_expired_products`: iterates a snapshot of the
items, deleting each expired grocery from the store and recording its id. -/
def sweepAux (today : Date) : List Product → Inventory × List String →
    Inventory × List String
  | [], st => st
  | p :: rest, (inv, ids) =>
    if p.isExpiredGrocery today then
      sweepAux today rest
        (⟨inv.products.filter (fun q => q.product_id != p.product_id)⟩,
          ids ++ [p.product_id])
    else sweepAux today rest (inv, ids)

/-- Method `remove_expired_products`: sweeps the snapshot of the store,
returning the post-sweep store and the removed ids in encounter order. -/
def Inventory.remove_expired_products (today : Date) (inv : Inventory) :
    Inventory × List String :=
  sweepAux today inv.products (inv, [])

/-! ## Value coercions used at construction

`Product.__init__` applies `float(price)` and `int(quantity_in_stock)`;
`Electronics.__init__` applies `int(warranty_years)`.  These builtins accept
numbers and numeric strings; the string grammar here is plain decimal
literals (Python additionally accepts exponents, leading dots and
whitespace, none of which this system ever produces).
-/

/-- Value of a nonempty string of decimal digits, `none` otherwise. -/
def digitsVal (cs : List Char) : Option Nat :=
  if cs.isEmpty then none
  else
    cs.foldl
      (fun acc c =>
        match acc, digit? c with
        | some n, some d => some (10 * n + d)
        | _, _ => none)
      (some 0)

/-- Python `int(s)` on a string: optional sign, decimal digits. -/
def parseIntStr (s : String) : Option Int :=
  match s.data with
  | '-' :: rest => (digitsVal rest).map (fun n => -(n : Int))
  | '+' :: rest => (digitsVal rest).map (fun n => (n : Int))
  | cs => (digitsVal cs).map (fun n => (n : Int))

/-- Python `float(s)` on a string: optional sign, decimal digits, optional
fraction. -/
def parseFloatStr (s : String) : Option Rat :=
  let unsigned : List Char → Option Rat := fun cs =>
    match cs.span (fun c => c != '.') with
    | (intPart, []) => (digitsVal intPart).map (fun n => (n : Rat))
    | (intPart, _dot :: fracPart) =>
      match digitsVal intPart, digitsVal fracPart with
      | some n, some f =>
          some ((n : Rat) + (f : Rat) / ((10 : Rat) ^ fracPart.length))
      | _, _ => none
  match s.data with
  | '-' :: rest => (unsigned rest).map (fun q => -q)
  | '+' :: rest => unsigned rest
  | cs => unsigned cs

/-- Truncation of a rational toward zero, Python `int(float)`. -/
def ratTrunc (q : Rat) : Int := Int.tdiv q.num (q.den : Int)

/-- Python `float(v)` on a JSON value. -/
def pyFloat : JVal → Except PyErr Rat
  | .jint n => .ok (n : Rat)
  | .jfloat q => .ok q
  | .jstr s =>
    match parseFloatStr s with
    | some q => .ok q
    | none => .error (.valueError ("could not convert string to float: " ++ s))

/-- Python `int(v)` on a JSON value (floats truncate toward zero). -/
def pyInt : JVal → Except PyErr Int
  | .jint n => .ok n
  | .jfloat q => .ok (ratTrunc q)
  | .jstr s =>
    match parseIntStr s with
    | some n => .ok n
    | none => .error (.valueError ("invalid literal for int() with base 10: " ++ s))

/-- Modelled from the spec: §6 fixes `product_id`, `name`, `brand`, `size`
and `material` to JSON strings (the Python constructors store these values
without conversion, so only strings ever arise from this system's files). -/
def pyStrField : JVal → Except PyErr String
  | .jstr s => .ok s
  | _ => .error (.typeError "expected a string value")

/-! ## Loading and saving

`load_from_file` is modelled on the parsed shape of the file: `json.load`
either fails (`JSONDecodeError`) or yields a value; the code then needs a
top-level object, a `products` list and one object per entry, and any other
shape raises a builtin exception (carried here as its message) that the
outer handler wraps.  `json.dump`/`json.load` of a document is the identity
on parsed shapes, so `save_to_file` produces the parsed document directly.
-/

/-- One element of the `products` array, as parsed. -/
inductive EntryVal where
  | notADict (pyMsg : String)
  | dict (fields : JObj)
deriving DecidableEq, Repr

/-- The value under the `products` key, as parsed. -/
inductive ProductsVal where
  | notAList (pyMsg : String)
  | entries (l : List EntryVal)
deriving DecidableEq, Repr

/-- A file submitted to `load_from_file`, as parsed by `json.load`:
unparseable JSON, a non-object top level, or an object with or without a
`products` key. -/
inductive LoadFile where
  | invalidJson
  | notAnObject (pyMsg : String)
  | obj (products : Option ProductsVal)
deriving DecidableEq, Repr

/-- Keyword-argument binding of `cls(**product_data)`: every key must be a
parameter name and every parameter must be bound, else `TypeError`. -/
def checkKeys (allowed : List String) (fields : JObj) : Except PyErr Unit :=
  match fields.find? (fun kv => !(allowed.contains kv.1)) with
  | some kv =>
      .error (.typeError ("__init__() got an unexpected keyword argument " ++ kv.1))
  | none =>
    match allowed.find? (fun k => (dictGet k fields).isNone) with
    | some k => .error (.typeError ("__init__() missing required argument " ++ k))
    | none => .ok ()

/-- Call `PRODUCT_TYPES[tag](**fields)`: binds the keyword arguments and runs
the matching constructor with its coercions. -/
def constructProduct (tag : String) (fields : JObj) : Except PyErr Product :=
  if tag == "Electronics" then
    match checkKeys ["product_id", "name", "price", "quantity_in_stock",
        "warranty_years", "brand"] fields with
    | .error e => .error e
    | .ok _ =>
      match dictGet "product_id" fields, dictGet "name" fields,
            dictGet "price" fields, dictGet "quantity_in_stock" fields,
            dictGet "warranty_years" fields, dictGet "brand" fields with
      | some v1, some v2, some v3, some v4, some v5, some v6 => do
          let pid ← pyStrField v1
          let nm ← pyStrField v2
          let pr ← pyFloat v3
          let qty ← pyInt v4
          let w ← pyInt v5
          let b ← pyStrField v6
          pure (mkElectronics pid nm pr qty w b)
      | _, _, _, _, _, _ =>
          .error (.typeError "__init__() missing required arguments")
  else if tag == "Grocery" then
    match checkKeys ["product_id", "name", "price", "quantity_in_stock",
        "expiry_date"] fields with
    | .error e => .error e
    | .ok _ =>
      match dictGet "product_id" fields, dictGet "name" fields,
            dictGet "price" fields, dictGet "quantity_in_stock" fields,
            dictGet "expiry_date" fields with
      | some v1, some v2, some v3, some v4, some v5 => do
          let pid ← pyStrField v1
          let nm ← pyStrField v2
          let pr ← pyFloat v3
          let qty ← pyInt v4
          let es ← pyStrField v5
          mkGrocery pid nm pr qty es
      | _, _, _, _, _ =>
          .error (.typeError "__init__() missing required arguments")
  else if tag == "Clothing" then
    match checkKeys ["product_id", "name", "price", "quantity_in_stock",
        "size", "material"] fields with
    | .error e => .error e
    | .ok _ =>
      match dictGet "product_id" fields, dictGet "name" fields,
            dictGet "price" fields, dictGet "quantity_in_stock" fields,
            dictGet "size" fields, dictGet "material" fields with
      | some v1, some v2, some v3, some v4, some v5, some v6 => do
          let pid ← pyStrField v1
          let nm ← pyStrField v2
          let pr ← pyFloat v3
          let qty ← pyInt v4
          let sz ← pyStrField v5
          let mt ← pyStrField v6
          pure (mkClothing pid nm pr qty sz mt)
      | _, _, _, _, _, _ =>
          .error (.typeError "__init__() missing required arguments")
  else .error (.typeError (tag ++ " is not a known product class"))

/-- Membership of the popped `type` value in `PRODUCT_TYPES` (a dict keyed
by the three tag strings; a missing or non-string value is simply not a
key). -/
def tagOf : Option JVal → Option String
  | some (.jstr t) => if t ∈ knownTypes then some t else none
  | _ => none

/-- Interpolation `f"...{product_type}"` of the popped `type` value (for a
float value, Python's repr is approximated by the rational rendering; no
theorem depends on that case). -/
def pyStrOfPopped : Option JVal → String
  | none => "None"
  | some (.jstr s) => s
  | some (.jint n) => toString n
  | some (.jfloat q) => toString q

/-- The outer `except Exception` handler of `load_from_file`. -/
def wrapLoadErr (e : PyErr) : PyErr :=
  .invalidProductData ("Error loading inventory: " ++ e.message)

/-- Loop of `load_from_file` over the `products` entries: pop the
discriminator, reject an unknown tag, then construct and add, wrapping any
construction or insertion failure (the inner `try`). -/
def loadLoop : List EntryVal → Inventory → Except PyErr Inventory
  | [], inv => .ok inv
  | .notADict m :: _, _ => .error (.attributeError m)
  | .dict fields :: rest, inv =>
    match tagOf (dictPop "type" fields).1 with
    | none =>
        .error (.invalidProductData
          ("Unknown product type: " ++ pyStrOfPopped (dictPop "type" fields).1))
    | some tag =>
      match constructProduct tag (dictPop "type" fields).2 with
      | .error e =>
          .error (.invalidProductData ("Error creating product: " ++ e.message))
      | .ok p =>
        match inv.add_product p with
        | .error e =>
            .error (.invalidProductData ("Error creating product: " ++ e.message))
        | .ok inv2 => loadLoop rest inv2

/-- Method `save_to_file`: writes `{"products": [p.to_dict() ...]}`; the
parsed shape of the written JSON document. -/
def Inventory.save_to_file (inv : Inventory) : LoadFile :=
  .obj (some (.entries (inv.products.map (fun p => .dict p.to_dict))))

/-- Classmethod `load_from_file`: starts from an empty store, reads the
parsed file, defaults a missing `products` key to `[]`, runs the entry
loop, and wraps every failure except the `JSONDecodeError` case in the
outer handler. -/
def Inventory.load_from_file (file : LoadFile) : Except PyErr Inventory :=
  match file with
  | .invalidJson => .error (.invalidProductData "Invalid JSON file")
  | .notAnObject m => .error (wrapLoadErr (.attributeError m))
  | .obj none => .ok ⟨[]⟩
  | .obj (some (.notAList m)) => .error (wrapLoadErr (.typeError m))
  | .obj (some (.entries l)) =>
    match loadLoop l ⟨[]⟩ with
    | .ok inv => .ok inv
    | .error e => .error (wrapLoadErr e)

/-! ## Operation sequences

Call sequences against a product or against the store, as the CLI issues
them: a failed call raises, the handler reports it, and the state the caller
continues with is unchanged (every raise in the source precedes any
mutation). -/

/-- One mutating call against a single product. -/
inductive ProdOp where
  | sellOp (quantity : Int)
  | restockOp (amount : Int)
  | setPriceOp (new_price : Rat)
deriving DecidableEq, Repr

/-- State of a product after one call: the successor on success, the
original product when the call raised. -/
def Product.applyOp (p : Product) : ProdOp → Product
  | .sellOp q =>
    match p.sell q with
    | .ok (_, p2) => p2
    | .error _ => p
  | .restockOp a =>
    match p.restock a with
    | .ok p2 => p2
    | .error _ => p
  | .setPriceOp r =>
    match p.set_price r with
    | .ok p2 => p2
    | .error _ => p

/-- State of a product after a sequence of calls. -/
def Product.applyOps (p : Product) (ops : List ProdOp) : Product :=
  ops.foldl Product.applyOp p

/-- One mutating call against the store. -/
inductive InvOp where
  | sellOp (product_id : String) (quantity : Int)
  | restockOp (product_id : String) (quantity : Int)
deriving DecidableEq, Repr

/-- State of the store after one call (unchanged when the call raised). -/
def Inventory.applyOp (inv : Inventory) : InvOp → Inventory
  | .sellOp id q =>
    match inv.sell_product id q with
    | .ok (_, inv2) => inv2
    | .error _ => inv
  | .restockOp id q =>
    match inv.restock_product id q with
    | .ok inv2 => inv2
    | .error _ => inv

/-- State of the store after a sequence of calls. -/
def Inventory.applyOps (inv : Inventory) (ops : List InvOp) : Inventory :=
  ops.foldl Inventory.applyOp inv

/-- Validity of a product record per §3 of the data model: non-negative
price and stock, non-negative warranty, a real calendar expiry date. -/
def Product.ValidData : Product → Prop
  | ⟨_, _, price, qty, .electronics w _⟩ => 0 ≤ price ∧ 0 ≤ qty ∧ 0 ≤ w
  | ⟨_, _, price, qty, .grocery e⟩ => 0 ≤ price ∧ 0 ≤ qty ∧ e.Valid
  | ⟨_, _, price, qty, .clothing _ _⟩ => 0 ≤ price ∧ 0 ≤ qty

instance : DecidablePred Product.ValidData := fun p =>
  match p with
  | ⟨_, _, price, qty, .electronics w _⟩ =>
      (inferInstance : Decidable (0 ≤ price ∧ 0 ≤ qty ∧ 0 ≤ w))
  | ⟨_, _, price, qty, .grocery e⟩ =>
      (inferInstance : Decidable (0 ≤ price ∧ 0 ≤ qty ∧ e.Valid))
  | ⟨_, _, price, qty, .clothing _ _⟩ =>
      (inferInstance : Decidable (0 ≤ price ∧ 0 ≤ qty))

/-- Ids of the expired groceries of a snapshot, in encounter order. -/
def expKeys (today : Date) (l : List Product) : List String :=
  (l.filter (fun p => p.isExpiredGrocery today)).map Product.product_id

/-! ## Supporting lemmas -/

theorem digit?_digitChar (k : Nat) : digit? (digitChar k) = some (k % 10) := by
  have hlt : k % 10 < 10 := Nat.mod_lt _ (by decide)
  have h : ∀ r, r < 10 → digit? (Char.ofNat (48 + r)) = some r := by decide
  simpa [digitChar] using h (k % 10) hlt

/-- Parsing an ISO rendering recovers the original valid date. -/
theorem fromIso_isoformat (d : Date) (h : d.Valid) :
    Date.fromIso d.isoformat = some d := by
  obtain ⟨y, m, dd⟩ := d
  obtain ⟨hy1, hy2, hm1, hm2, hd1, hd2⟩ := h
  have hy2' : y ≤ 9999 := hy2
  have hm2' : m ≤ 12 := hm2
  have hd2' : dd ≤ daysInMonth y m := hd2
  have hdm : daysInMonth y m ≤ 31 := by
    unfold daysInMonth
    split_ifs <;> omega
  have hy : 1000 * (y / 1000 % 10) + 100 * (y / 100 % 10) +
      10 * (y / 10 % 10) + y % 10 = y := by omega
  have hm : 10 * (m / 10 % 10) + m % 10 = m := by omega
  have hd : 10 * (dd / 10 % 10) + dd % 10 = dd := by omega
  have hvalid : Date.Valid ⟨y, m, dd⟩ := ⟨hy1, hy2, hm1, hm2, hd1, hd2⟩
  simp only [Date.fromIso, Date.isoformat, pad4, pad2, List.cons_append,
    List.nil_append, digit?_digitChar]
  norm_num [hy, hm, hd, hvalid]

/-- Folding addition of the per-product totals equals the sum of the map. -/
theorem foldl_add_total (l : List Product) (a : Rat) :
    l.foldl (fun acc p => acc + p.get_total_value) a =
      a + (l.map Product.get_total_value).sum := by
  induction l generalizing a with
  | nil => simp
  | cons p rest ih => simp [ih, add_assoc]

/-- A single successful or failed call preserves non-negative price and
stock. -/
theorem applyOp_preserves_nonneg (p : Product) (op : ProdOp)
    (hp : 0 ≤ p.price) (hq : 0 ≤ p.quantity_in_stock) :
    0 ≤ (p.applyOp op).price ∧ 0 ≤ (p.applyOp op).quantity_in_stock := by
  cases op with
  | sellOp q =>
    simp only [Product.applyOp, Product.sell]
    split_ifs with h1 h2
    · exact ⟨hp, hq⟩
    · exact ⟨hp, hq⟩
    · exact ⟨hp, by show 0 ≤ p.quantity_in_stock - q; omega⟩
  | restockOp a =>
    simp only [Product.applyOp, Product.restock]
    split_ifs with h1
    · exact ⟨hp, hq⟩
    · exact ⟨hp, by show 0 ≤ p.quantity_in_stock + a; omega⟩
  | setPriceOp r =>
    simp only [Product.applyOp, Product.set_price]
    split_ifs with h1
    · exact ⟨hp, hq⟩
    · exact ⟨not_lt.mp h1, hq⟩

/-! ## Claims -/

/-- C2: for every product with price `p` and stock `q`, and every quantity
`s` with `0 ≤ s ≤ q`, `sell(s)` succeeds, returns the sale total `p * s`
computed from the price at call time, and leaves stock `q - s`; in
particular `sell(q)` succeeds and leaves stock 0. -/
theorem C2_sell_in_range (p : Product) (s : Int)
    (h0 : 0 ≤ s) (hq : s ≤ p.quantity_in_stock) :
    p.sell s = .ok (p.price * (s : Rat),
      { p with quantity_in_stock := p.quantity_in_stock - s }) ∧
    p.sell p.quantity_in_stock = .ok (p.price * (p.quantity_in_stock : Rat),
      { p with quantity_in_stock := 0 }) := by
  constructor
  · simp only [Product.sell]
    rw [if_neg (by omega), if_neg (by omega)]
  · simp only [Product.sell]
    rw [if_neg (by omega), if_neg (by omega)]
    simp

theorem C2_sell_in_range_witness :
    0 ≤ (3 : Int) ∧
    (3 : Int) ≤ (mkElectronics "E1" "TV" 100 5 2 "Acme").quantity_in_stock ∧
    (mkElectronics "E1" "TV" 100 5 2 "Acme").sell 3 =
      .ok ((mkElectronics "E1" "TV" 100 5 2 "Acme").price * ((3 : Int) : Rat),
        { mkElectronics "E1" "TV" 100 5 2 "Acme" with
            quantity_in_stock :=
              (mkElectronics "E1" "TV" 100 5 2 "Acme").quantity_in_stock - 3 }) :=
  ⟨by decide, by decide,
    (C2_sell_in_range (mkElectronics "E1" "TV" 100 5 2 "Acme") 3
      (by decide) (by decide)).1⟩

/-- C3: for a product with non-negative stock (§3 data model), a negative
sale quantity fails with the `InvalidArgument` kind (`ValueError`), an
oversized one fails with `InsufficientStock` carrying the product id, the
requested and the available quantity, and in both failure cases the raise
precedes any mutation, so the state the caller keeps is the unchanged
product. -/
theorem C3_sell_failures (p : Product) (s : Int)
    (hstock : 0 ≤ p.quantity_in_stock) :
    (s < 0 → p.sell s = .error (.valueError "Sale quantity cannot be negative")) ∧
    (s > p.quantity_in_stock →
      p.sell s = .error (.insufficientStock p.product_id s p.quantity_in_stock)) ∧
    ((s < 0 ∨ s > p.quantity_in_stock) → p.applyOp (.sellOp s) = p) := by
  refine ⟨fun h => ?_, fun h => ?_, fun h => ?_⟩
  · simp only [Product.sell]
    rw [if_pos h]
  · simp only [Product.sell]
    rw [if_neg (by omega), if_pos h]
  · rcases h with h | h
    · have h1 : p.sell s = .error (.valueError "Sale quantity cannot be negative") := by
        simp only [Product.sell]; rw [if_pos h]
      simp [Product.applyOp, h1]
    · have h1 : p.sell s =
          .error (.insufficientStock p.product_id s p.quantity_in_stock) := by
        simp only [Product.sell]; rw [if_neg (by omega), if_pos h]
      simp [Product.applyOp, h1]

theorem C3_sell_failures_witness :
    0 ≤ (mkElectronics "E1" "TV" 100 2 2 "Acme").quantity_in_stock ∧
    (3 : Int) > (mkElectronics "E1" "TV" 100 2 2 "Acme").quantity_in_stock ∧
    (mkElectronics "E1" "TV" 100 2 2 "Acme").sell 3 =
      .error (.insufficientStock (mkElectronics "E1" "TV" 100 2 2 "Acme").product_id 3
        (mkElectronics "E1" "TV" 100 2 2 "Acme").quantity_in_stock) :=
  ⟨by decide, by decide,
    (C3_sell_failures (mkElectronics "E1" "TV" 100 2 2 "Acme") 3 (by decide)).2.1
      (by decide)⟩

/-- C4 counterexample: the constructors perform no validation, so a product
with a negative price, and one with negative stock, are constructed without
any error being raised, refuting "price is non-negative and
quantity_in_stock is a non-negative integer at every point in its
lifetime: constructors raise the documented validation errors on negative
inputs". -/
theorem C4_counterexample :
    (mkElectronics "E1" "TV" (-5) 3 2 "Acme").price < 0 ∧
    mkGrocery "G1" "Milk" 2 (-7) "2030-01-01" =
      .ok ⟨"G1", "Milk", 2, -7, .grocery ⟨2030, 1, 1⟩⟩ := by
  constructor
  · decide
  · rfl

/-- C4 (amended): the constructors perform no validation, so negative
price or stock can be present at construction; but `set_price` rejects a
negative price and `sell`/`restock` reject negative deltas and oversel-
ling, so a product constructed with non-negative price and stock keeps
both non-negative under every operation sequence. -/
theorem C4_ops_preserve_nonneg (p : Product) (ops : List ProdOp)
    (hp : 0 ≤ p.price) (hq : 0 ≤ p.quantity_in_stock) :
    0 ≤ (p.applyOps ops).price ∧ 0 ≤ (p.applyOps ops).quantity_in_stock := by
  induction ops generalizing p with
  | nil => exact ⟨hp, hq⟩
  | cons op rest ih =>
    have h := applyOp_preserves_nonneg p op hp hq
    simp only [Product.applyOps, List.foldl_cons]
    exact ih _ h.1 h.2

theorem C4_ops_preserve_nonneg_witness :
    0 ≤ (mkClothing "C1" "Shirt" 20 10 "M" "Cotton").price ∧
    0 ≤ (mkClothing "C1" "Shirt" 20 10 "M" "Cotton").quantity_in_stock ∧
    (0 ≤ ((mkClothing "C1" "Shirt" 20 10 "M" "Cotton").applyOps
        [.sellOp 3, .restockOp 5, .setPriceOp 15]).price ∧
      0 ≤ ((mkClothing "C1" "Shirt" 20 10 "M" "Cotton").applyOps
        [.sellOp 3, .restockOp 5, .setPriceOp 15]).quantity_in_stock) :=
  ⟨by decide, by decide,
    C4_ops_preserve_nonneg (mkClothing "C1" "Shirt" 20 10 "M" "Cotton")
      [.sellOp 3, .restockOp 5, .setPriceOp 15] (by decide) (by decide)⟩

/-- C9: after any sequence of sell/restock calls, a product's
`get_total_value` equals `price * quantity_in_stock` for the current price
and stock, and the inventory's `total_inventory_value` equals the sum of
`get_total_value` over all stored products, 0 for an empty inventory. -/
theorem C9_total_value (p : Product) (pops : List ProdOp)
    (inv : Inventory) (ops : List InvOp) :
    (p.applyOps pops).get_total_value =
      (p.applyOps pops).price * (((p.applyOps pops).quantity_in_stock : Int) : Rat) ∧
    (inv.applyOps ops).total_inventory_value =
      ((inv.applyOps ops).products.map Product.get_total_value).sum ∧
    Inventory.total_inventory_value ⟨[]⟩ = 0 := by
  refine ⟨rfl, ?_, rfl⟩
  simp [Inventory.total_inventory_value, foldl_add_total]

/-- C10: a file whose JSON parses to an object without a `products` key
loads successfully as a fresh empty inventory (the missing key defaults to
an empty list). -/
theorem C10_load_missing_products :
    Inventory.load_from_file (.obj none) = .ok ⟨[]⟩ := rfl

/-- C7: `search_by_name(s)` returns, in store order, exactly the products
whose lowered name contains the lowered query as a substring; the empty
query matches every product, and the result depends only on the lowered
forms of the query and of the stored names (case-insensitivity on both
sides). -/
theorem C7_search_by_name_spec (inv : Inventory) (s : String) :
    inv.search_by_name s =
      inv.products.filter
        (fun p => decide ((pyLower s).data <:+: (pyLower p.name).data)) ∧
    inv.search_by_name "" = inv.products ∧
    (∀ s2 : String, pyLower s2 = pyLower s →
      inv.search_by_name s2 = inv.search_by_name s) ∧
    (∀ p q : Product, pyLower p.name = pyLower q.name →
      strIn (pyLower s) (pyLower p.name) = strIn (pyLower s) (pyLower q.name)) := by
  refine ⟨rfl, ?_, fun s2 h => ?_, fun p q h => ?_⟩
  · refine List.filter_eq_self.mpr (fun a _ => ?_)
    show strIn (pyLower "") (pyLower a.name) = true
    exact decide_eq_true List.nil_infix
  · unfold Inventory.search_by_name
    rw [h]
  · rw [h]

theorem C7_search_by_name_spec_witness :
    pyLower "TV" = pyLower "tv" ∧
    (Inventory.mk [mkElectronics "E1" "TV" 100 5 2 "Acme"]).search_by_name "TV" =
      (Inventory.mk [mkElectronics "E1" "TV" 100 5 2 "Acme"]).search_by_name "tv" :=
  ⟨by decide,
    (C7_search_by_name_spec (Inventory.mk [mkElectronics "E1" "TV" 100 5 2 "Acme"])
      "tv").2.2.1 "TV" (by decide)⟩

/-- C8: `search_by_type` fails with the `InvalidProductType` kind exactly
when the tag is not one of the three known variants, and for a known tag
returns exactly the stored products of that runtime variant, in store
order (the operation reads the store without modifying it). -/
theorem C8_search_by_type_spec (inv : Inventory) (t : String) :
    (inv.search_by_type t = .error (.invalidProductType t) ↔ t ∉ knownTypes) ∧
    (t ∈ knownTypes →
      inv.search_by_type t =
        .ok (inv.products.filter (fun p => p.variant.tag == t))) := by
  unfold Inventory.search_by_type
  by_cases h : t ∈ knownTypes
  · rw [if_pos h]
    constructor
    · constructor
      · intro hc
        simp at hc
      · intro hn
        exact absurd h hn
    · intro _
      rfl
  · rw [if_neg h]
    constructor
    · exact ⟨fun _ => h, fun _ => rfl⟩
    · intro hm
      exact absurd hm h

theorem C8_search_by_type_spec_witness :
    "Furniture" ∉ knownTypes ∧
    (Inventory.mk []).search_by_type "Furniture" =
      .error (.invalidProductType "Furniture") :=
  ⟨by decide, (C8_search_by_type_spec (Inventory.mk []) "Furniture").1.mpr (by decide)⟩

/-- Unfolding of the sweep loop: the final store is the starting store
minus the keys of the expired snapshot entries, and their ids are appended
in encounter order. -/
theorem sweepAux_spec (today : Date) (l : List Product) (s : List Product)
    (ids : List String) :
    sweepAux today l (⟨s⟩, ids) =
      (⟨s.filter (fun q => !((expKeys today l).contains q.product_id))⟩,
        ids ++ expKeys today l) := by
  induction l generalizing s ids with
  | nil => simp [sweepAux, expKeys]
  | cons p rest ih =>
    by_cases hp : p.isExpiredGrocery today
    · have hstep : sweepAux today (p :: rest) (⟨s⟩, ids) =
          sweepAux today rest
            (⟨s.filter (fun q => q.product_id != p.product_id)⟩,
              ids ++ [p.product_id]) := by
        simp [sweepAux, hp]
      have hkeys : expKeys today (p :: rest) = p.product_id :: expKeys today rest := by
        simp [expKeys, hp]
      have hfil : (s.filter (fun q => q.product_id != p.product_id)).filter
            (fun q => !((expKeys today rest).contains q.product_id)) =
          s.filter
            (fun q => !((p.product_id :: expKeys today rest).contains q.product_id)) := by
        rw [List.filter_filter]
        refine List.filter_congr (fun q _ => ?_)
        by_cases hqp : q.product_id = p.product_id <;>
          simp [List.contains_cons, hqp, Bool.and_comm]
      rw [hstep, ih, hkeys, hfil]
      simp
    · have hstep : sweepAux today (p :: rest) (⟨s⟩, ids) =
          sweepAux today rest (⟨s⟩, ids) := by
        simp [sweepAux, hp]
      have hkeys : expKeys today (p :: rest) = expKeys today rest := by
        simp [expKeys, hp]
      rw [hstep, ih, hkeys]

/-- With unique ids, a product's id is among the expired keys of a snapshot
it belongs to exactly when the product itself is expired. -/
theorem contains_expKeys (today : Date) (l : List Product)
    (hnod : (l.map Product.product_id).Nodup) (q : Product) (hq : q ∈ l) :
    (expKeys today l).contains q.product_id = q.isExpiredGrocery today := by
  have hmem : q.product_id ∈ expKeys today l ↔ q.isExpiredGrocery today = true := by
    constructor
    · intro hc
      simp only [expKeys, List.mem_map, List.mem_filter] at hc
      obtain ⟨r, ⟨hr, hrx⟩, hrid⟩ := hc
      have hrq : r = q := List.inj_on_of_nodup_map hnod hr hq hrid
      exact hrq ▸ hrx
    · intro hb
      simp only [expKeys, List.mem_map, List.mem_filter]
      exact ⟨q, ⟨hq, hb⟩, rfl⟩
  by_cases hb : q.isExpiredGrocery today = true
  · rw [hb]
    exact List.elem_iff.mpr (hmem.mpr hb)
  · rw [Bool.not_eq_true] at hb
    rw [hb, Bool.eq_false_iff]
    intro hc
    have hx := hmem.mp (List.elem_iff.mp hc)
    rw [hb] at hx
    exact Bool.false_ne_true hx

/-- C6: with unique ids, `remove_expired_products` removes from the store
exactly the Grocery products expired at the moment of the call, leaves
every other product unchanged in the store in its original order, and
returns the removed ids in the store's insertion order. -/
theorem C6_remove_expired_spec (today : Date) (inv : Inventory)
    (hnod : (inv.products.map Product.product_id).Nodup) :
    (inv.remove_expired_products today).1.products =
      inv.products.filter (fun p => !(p.isExpiredGrocery today)) ∧
    (inv.remove_expired_products today).2 =
      (inv.products.filter (fun p => p.isExpiredGrocery today)).map
        Product.product_id := by
  have h2 : sweepAux today inv.products (inv, []) =
      (⟨inv.products.filter
          (fun q => !((expKeys today inv.products).contains q.product_id))⟩,
        [] ++ expKeys today inv.products) :=
    sweepAux_spec today inv.products inv.products []
  constructor
  · show (sweepAux today inv.products (inv, [])).1.products = _
    rw [h2]
    refine List.filter_congr (fun q hqmem => ?_)
    rw [contains_expKeys today inv.products hnod q hqmem]
  · show (sweepAux today inv.products (inv, [])).2 = _
    rw [h2]
    simp [expKeys]

theorem C6_remove_expired_spec_witness :
    ((Inventory.mk [⟨"E1", "TV", 100, 5, .electronics 2 "Acme"⟩,
        ⟨"G1", "Milk", 2, 10, .grocery ⟨2000, 1, 1⟩⟩,
        ⟨"G2", "Bread", 1, 4, .grocery ⟨2030, 1, 1⟩⟩]).products.map
      Product.product_id).Nodup ∧
    (((Inventory.mk [⟨"E1", "TV", 100, 5, .electronics 2 "Acme"⟩,
        ⟨"G1", "Milk", 2, 10, .grocery ⟨2000, 1, 1⟩⟩,
        ⟨"G2", "Bread", 1, 4, .grocery ⟨2030, 1, 1⟩⟩]).remove_expired_products
          ⟨2025, 6, 1⟩).1.products =
      (Inventory.mk [⟨"E1", "TV", 100, 5, .electronics 2 "Acme"⟩,
        ⟨"G1", "Milk", 2, 10, .grocery ⟨2000, 1, 1⟩⟩,
        ⟨"G2", "Bread", 1, 4, .grocery ⟨2030, 1, 1⟩⟩]).products.filter
          (fun p => !(p.isExpiredGrocery ⟨2025, 6, 1⟩)) ∧
      ((Inventory.mk [⟨"E1", "TV", 100, 5, .electronics 2 "Acme"⟩,
        ⟨"G1", "Milk", 2, 10, .grocery ⟨2000, 1, 1⟩⟩,
        ⟨"G2", "Bread", 1, 4, .grocery ⟨2030, 1, 1⟩⟩]).remove_expired_products
          ⟨2025, 6, 1⟩).2 =
      ((Inventory.mk [⟨"E1", "TV", 100, 5, .electronics 2 "Acme"⟩,
        ⟨"G1", "Milk", 2, 10, .grocery ⟨2000, 1, 1⟩⟩,
        ⟨"G2", "Bread", 1, 4, .grocery ⟨2030, 1, 1⟩⟩]).products.filter
          (fun p => p.isExpiredGrocery ⟨2025, 6, 1⟩)).map Product.product_id) :=
  ⟨by decide,
    C6_remove_expired_spec ⟨2025, 6, 1⟩
      (Inventory.mk [⟨"E1", "TV", 100, 5, .electronics 2 "Acme"⟩,
        ⟨"G1", "Milk", 2, 10, .grocery ⟨2000, 1, 1⟩⟩,
        ⟨"G2", "Bread", 1, 4, .grocery ⟨2030, 1, 1⟩⟩]) (by decide)⟩

/-- C5: `load_from_file` fails only with the `InvalidProductData` kind: a
non-JSON file fails with the message "Invalid JSON file", an entry with an
unknown discriminator tag fails with a message naming the unknown type,
and every other failure (construction, duplicate id, structural) is
wrapped into the same kind by the outer handler. -/
theorem C5_load_error_kinds :
    (∀ (f : LoadFile) (e : PyErr),
      Inventory.load_from_file f = .error e → e.isInvalidProductData = true) ∧
    Inventory.load_from_file .invalidJson =
      .error (.invalidProductData "Invalid JSON file") ∧
    (∀ (fields : JObj) (rest : List EntryVal) (t : String),
      (dictPop "type" fields).1 = some (.jstr t) → t ∉ knownTypes →
      Inventory.load_from_file (.obj (some (.entries (.dict fields :: rest)))) =
        .error (.invalidProductData
          ("Error loading inventory: " ++ ("Invalid product data: " ++
            ("Unknown product type: " ++ t))))) := by
  refine ⟨?_, rfl, ?_⟩
  · intro f e he
    cases f with
    | invalidJson =>
      simp only [Inventory.load_from_file] at he
      injection he with h
      subst h
      rfl
    | notAnObject m =>
      simp only [Inventory.load_from_file] at he
      injection he with h
      subst h
      rfl
    | obj o =>
      match o with
      | none => simp [Inventory.load_from_file] at he
      | some (.notAList m) =>
        simp only [Inventory.load_from_file] at he
        injection he with h
        subst h
        rfl
      | some (.entries l) =>
        simp only [Inventory.load_from_file] at he
        cases hll : loadLoop l ⟨[]⟩ with
        | ok inv =>
          rw [hll] at he
          simp at he
        | error e2 =>
          rw [hll] at he
          injection he with h
          subst h
          rfl
  · intro fields rest t hpop hnt
    have hloop : loadLoop (.dict fields :: rest) ⟨[]⟩ =
        .error (.invalidProductData ("Unknown product type: " ++ t)) := by
      simp only [loadLoop, hpop, tagOf, pyStrOfPopped]
      rw [if_neg hnt]
    simp only [Inventory.load_from_file, hloop, wrapLoadErr, PyErr.message]

theorem C5_load_error_kinds_witness :
    (dictPop "type" [("type", JVal.jstr "Furniture")]).1 =
      some (.jstr "Furniture") ∧
    "Furniture" ∉ knownTypes ∧
    Inventory.load_from_file
        (.obj (some (.entries [.dict [("type", JVal.jstr "Furniture")]]))) =
      .error (.invalidProductData
        ("Error loading inventory: " ++ ("Invalid product data: " ++
          ("Unknown product type: " ++ "Furniture")))) :=
  ⟨rfl, by decide,
    C5_load_error_kinds.2.2 [("type", JVal.jstr "Furniture")] [] "Furniture"
      rfl (by decide)⟩

/-- Popping the discriminator of a serialized product yields its tag, and
reconstruction from the remaining fields yields the product back. -/
theorem construct_to_dict_pop (p : Product) (h : p.ValidData) :
    tagOf (dictPop "type" p.to_dict).1 = some p.variant.tag ∧
    constructProduct p.variant.tag (dictPop "type" p.to_dict).2 = .ok p := by
  obtain ⟨pid, nm, pr, q, v⟩ := p
  cases v with
  | electronics w b => exact ⟨rfl, rfl⟩
  | clothing sz mt => exact ⟨rfl, rfl⟩
  | grocery e =>
    refine ⟨rfl, ?_⟩
    have he : e.Valid := h.2.2
    show mkGrocery pid nm pr q e.isoformat = .ok ⟨pid, nm, pr, q, .grocery e⟩
    simp only [mkGrocery, fromIso_isoformat e he]

/-- Loading the serialized entries of a valid, duplicate-free product list
appends exactly those products to the accumulator. -/
theorem loadLoop_to_dict (ps : List Product) (acc : Inventory)
    (hval : ∀ p ∈ ps, p.ValidData)
    (hnod : ((acc.products ++ ps).map Product.product_id).Nodup) :
    loadLoop (ps.map (fun p => .dict p.to_dict)) acc = .ok ⟨acc.products ++ ps⟩ := by
  induction ps generalizing acc with
  | nil => simp [loadLoop]
  | cons p rest ih =>
    have hp := hval p (List.mem_cons_self _ _)
    have hcd := construct_to_dict_pop p hp
    have hnotin : p.product_id ∉ acc.ids := by
      intro hin
      rw [List.map_append, List.nodup_append] at hnod
      exact hnod.2.2 hin (by simp)
    have hadd : acc.add_product p = .ok ⟨acc.products ++ [p]⟩ := by
      simp [Inventory.add_product, hnotin]
    have hnod2 : (((acc.products ++ [p]) ++ rest).map Product.product_id).Nodup := by
      rw [List.append_assoc]
      simpa using hnod
    have hval2 : ∀ r ∈ rest, r.ValidData :=
      fun r hr => hval r (List.mem_cons_of_mem _ hr)
    simp only [List.map_cons, loadLoop, hcd.1, hcd.2, hadd,
      ih (Inventory.mk (acc.products ++ [p])) hval2 hnod2]
    simp

/-- C1: for an inventory of valid products with unique ids, saving and then
loading reproduces the inventory exactly: the same ids in the same order,
each mapped to a product of the same variant with the same common and
variant-specific field values. -/
theorem C1_save_load_roundtrip (inv : Inventory)
    (hnod : (inv.products.map Product.product_id).Nodup)
    (hval : ∀ p ∈ inv.products, p.ValidData) :
    Inventory.load_from_file inv.save_to_file = .ok inv := by
  have hl := loadLoop_to_dict inv.products ⟨[]⟩ hval (by simpa using hnod)
  simp only [Inventory.save_to_file, Inventory.load_from_file, hl]
  simp

theorem C1_save_load_roundtrip_witness :
    ((Inventory.mk [⟨"E1", "TV", 100, 5, .electronics 2 "Acme"⟩,
        ⟨"G1", "Milk", 2, 10, .grocery ⟨2026, 2, 28⟩⟩,
        ⟨"C1", "Shirt", 20, 7, .clothing "M" "Cotton"⟩]).products.map
      Product.product_id).Nodup ∧
    (∀ p ∈ (Inventory.mk [⟨"E1", "TV", 100, 5, .electronics 2 "Acme"⟩,
        ⟨"G1", "Milk", 2, 10, .grocery ⟨2026, 2, 28⟩⟩,
        ⟨"C1", "Shirt", 20, 7, .clothing "M" "Cotton"⟩]).products,
      p.ValidData) ∧
    Inventory.load_from_file
        (Inventory.mk [⟨"E1", "TV", 100, 5, .electronics 2 "Acme"⟩,
          ⟨"G1", "Milk", 2, 10, .grocery ⟨2026, 2, 28⟩⟩,
          ⟨"C1", "Shirt", 20, 7, .clothing "M" "Cotton"⟩]).save_to_file =
      .ok (Inventory.mk [⟨"E1", "TV", 100, 5, .electronics 2 "Acme"⟩,
        ⟨"G1", "Milk", 2, 10, .grocery ⟨2026, 2, 28⟩⟩,
        ⟨"C1", "Shirt", 20, 7, .clothing "M" "Cotton"⟩]) :=
  ⟨by decide, by decide,
    C1_save_load_roundtrip
      (Inventory.mk [⟨"E1", "TV", 100, 5, .electronics 2 "Acme"⟩,
        ⟨"G1", "Milk", 2, 10, .grocery ⟨2026, 2, 28⟩⟩,
        ⟨"C1", "Shirt", 20, 7, .clothing "M" "Cotton"⟩])
      (by decide) (by decide)⟩

end IMS
